import Mathlib

/-!
Portal dropper: `scripts/system/DarlingVRGoTo/app-portalDropper.js`.

A shallow embedding of the script's trust gate (`messageReceived`, `isTrusted`), portal life
cycle (`portal.newPortal` and the callbacks registered by its inner `start`) and bookmark
helpers (`getLocationBookmarks`, `setLocationBookmarks`).

Conventions of the embedding.

* Script values are `JSVal`.  Numbers are idealised as rationals.
* What the host application supplies is an input: the result of `JSON.parse` (`Host.jsonParse`),
  string conversion (`Host.toStr`), the local session identity, the answer given to
  `Window.confirm`, the avatar-forward spawn
  position and the `Math.random()` samples (`Spawn`), and at each proximity poll the value of
  `Vec3.withinEpsilon(MyAvatar.position, p.pos, 0.75)`.
* Host calls made by the script are recorded in logs (`Effect`, `HostCall`), and the host-side
  status of a portal's overlay and timers is kept next to the record `p` (`PortalSys`).
* A raised exception is an explicit outcome (`Outcome.raised`, `Except JSError`).
-/

namespace PortalDropper

set_option maxRecDepth 8000

/-! ## Script values -/

/-- Values of the scripting language that the script handles: `undefined`, `null`, booleans,
numbers, strings, arrays and plain objects (an association list, first binding wins). -/
inductive JSVal where
  | undefined
  | null
  | bool (b : Bool)
  | num (q : ℚ)
  | str (s : String)
  | arr (items : List JSVal)
  | obj (fields : List (String × JSVal))

/-- Strict equality `a === b`.  Primitives compare by value.  Arrays and objects compare by
identity; every array or object met here comes out of its own `JSON.parse` call, so two of them
held in different places are never identical. -/
def strictEq : JSVal → JSVal → Bool
  | .undefined, .undefined => true
  | .null, .null => true
  | .bool a, .bool b => a == b
  | .num a, .num b => a == b
  | .str a, .str b => a == b
  | _, _ => false

/-- Truthiness `!!v`. -/
def truthy : JSVal → Bool
  | .undefined => false
  | .null => false
  | .bool b => b
  | .num q => q != 0
  | .str s => s != ""
  | .arr _ => true
  | .obj _ => true

/-- Value bound to `k` in an object's fields, `undefined` when there is none. -/
def lookupField (k : String) : List (String × JSVal) → JSVal
  | [] => .undefined
  | (k', v) :: rest => if k' = k then v else lookupField k rest

/-- Property read `v.k` for the property names the script reads (`avatar`, `loc`, `name`,
`remoteData`, `color`, `pos`), none of which is defined on a prototype: reading from `undefined`
or `null` raises a TypeError (`none`), reading from another primitive or from an array gives
`undefined`. -/
def getProp (v : JSVal) (k : String) : Option JSVal :=
  match v with
  | .undefined => none
  | .null => none
  | .obj fs => some (lookupField k fs)
  | _ => some .undefined

/-- The test `l.search("hifi://") === 0` of lines 205 and 213 on a string `l`: the pattern has
no special character, so the first match is at index 0 exactly when `l` begins with
`hifi://`. -/
def searchHifiIsZero (l : String) : Bool :=
  "hifi://".toList.isPrefixOf l.toList

/-- Scan for `v` from position `i` on: the first index holding a value strictly equal to `v`,
or `-1`. -/
def indexOfFrom (v : JSVal) : List JSVal → Nat → Int
  | [], _ => -1
  | x :: rest, i => if strictEq x v then (i : Int) else indexOfFrom v rest (i + 1)

/-- Array method `xs.indexOf(v)`: the first index holding a value strictly equal to `v`, or
`-1`. -/
def indexOf (xs : List JSVal) (v : JSVal) : Int :=
  indexOfFrom v xs 0

/-! ## Host -/

/-- What the host supplies for the whole session. -/
structure Host where
  /-- The builtin `JSON.parse(x)`; `none` when it raises. -/
  jsonParse : JSVal → Option JSVal
  /-- The string conversion applied to `x` by `"..." + x`; `none` when it raises. -/
  toStr : JSVal → Option String
  /-- The value of `MyAvatar.sessionUUID`. -/
  sessionUUID : String

/-- Host readings taken by one `portal.newPortal` call. -/
structure Spawn where
  /-- The value of `Vec3.sum(MyAvatar.position, Vec3.multiply(Quat.getForward(MyAvatar.orientation), 2))`. -/
  pos : JSVal
  /-- The three `Math.random()` samples, in evaluation order (red, green, blue). -/
  r1 : ℚ
  r2 : ℚ
  r3 : ℚ
  /-- The script variable `userID`. -/
  userID : JSVal
  /-- The value of `MyAvatar.sessionDisplayName`. -/
  displayName : JSVal

/-- Lines 132-134: `Math.random() * (max - min + 1) + min`, with `r` the random sample. -/
def randomIntFromInterval (r min max : ℚ) : ℚ :=
  r * (max - min + 1) + min

/-! ## Portal life cycle (lines 30-116) -/

/-- The callbacks that `start` hands to the host timers. -/
inductive TimerId where
  | label
  | expiry
  | poll
  deriving DecidableEq, Repr

/-- Host calls made by `portal.newPortal`, `start` and the callbacks registered there. -/
inductive HostCall where
  /-- Call `Overlays.addOverlay("sphere", ...)` (line 52). -/
  | addSphere (position color : JSVal)
  /-- Call `Overlays.addOverlay("text3d", ...)` (line 56), parented to the sphere, placed at
  `Vec3.sum(anchor, {x: 0, y: 1.2, z: 0})`. -/
  | addLabel (anchor color text : JSVal)
  /-- Call `Script.setTimeout(callback, delay)`. -/
  | setTimeout (cb : TimerId) (delay : Nat)
  /-- Call `Script.setInterval(callback, period)`. -/
  | setInterval (cb : TimerId) (period : Nat)
  /-- Call `Messages.sendMessage(chan, JSON.stringify(payload))`. -/
  | sendMessage (chan : String) (payload : JSVal)
  /-- Call `Script.scriptEnding.connect(handler)` (line 108). -/
  | connectScriptEnding
  /-- Call `Overlays.editOverlay(p.textOverlay, ...)` (line 74). -/
  | editLabel
  /-- The assignment `location = p.loc` (line 98). -/
  | setLocation (loc : String)
  /-- Call `Overlays.deleteOverlay(p.overlay)`. -/
  | deleteOverlay
  /-- Call `Script.clearInterval(p.timer)`. -/
  | clearInterval
  /-- Call `Script.clearTimeout(p.timeout)`. -/
  | clearTimeout

/-- Is the call the assignment `location = ...`? -/
def HostCall.isSetLocation : HostCall → Bool
  | .setLocation _ => true
  | _ => false

/-- Is the call `Overlays.deleteOverlay(p.overlay)`? -/
def HostCall.isDeleteOverlay : HostCall → Bool
  | .deleteOverlay => true
  | _ => false

/-- Is the call `Script.clearInterval(p.timer)`? -/
def HostCall.isClearInterval : HostCall → Bool
  | .clearInterval => true
  | _ => false

/-- Is the call `Script.clearTimeout(p.timeout)`? -/
def HostCall.isClearTimeout : HostCall → Bool
  | .clearTimeout => true
  | _ => false

/-- Does the call release the overlay or cancel a timer? -/
def HostCall.isRelease (c : HostCall) : Bool :=
  c.isDeleteOverlay || c.isClearInterval || c.isClearTimeout

/-- The record `p` of one portal (lines 32-44) together with the host-side status of the
resources it owns and the log of host calls made on its behalf. -/
structure PortalSys where
  /-- Field `p.loc`. -/
  loc : String
  /-- Field `p.pos`. -/
  pos : JSVal
  /-- Field `p.color`. -/
  color : JSVal
  /-- Field `p.interval`. -/
  interval : Nat
  /-- Field `p.active`. -/
  active : Bool
  /-- The overlay `p.overlay` (sphere, with the label parented to it) exists. -/
  overlayLive : Bool
  /-- The label-size timeout of line 72 is scheduled and has not fired. -/
  labelPending : Bool
  /-- The interval `p.timer` is scheduled. -/
  pollScheduled : Bool
  /-- The timeout `p.timeout` is scheduled and has not fired. -/
  expiryPending : Bool
  /-- Host calls so far, oldest first. -/
  log : List HostCall

/-- String method `s.split(sep)` on the characters of `s`, for a one-character separator. -/
def splitChars (sep : Char) : List Char → List (List Char)
  | [] => [[]]
  | c :: cs =>
    match splitChars sep cs with
    | [] => [[]]
    | w :: ws => if c = sep then [] :: w :: ws else (c :: w) :: ws

/-- The label text `p.loc.split("/")[2]`. -/
def labelText (loc : String) : JSVal :=
  match (splitChars '/' loc.toList).get? 2 with
  | some w => .str (String.mk w)
  | none => .undefined

/-- Record one host call. -/
def PortalSys.call (s : PortalSys) (c : HostCall) : PortalSys :=
  { s with log := s.log ++ [c] }

/-- Call `Overlays.deleteOverlay(p.overlay)`. -/
def PortalSys.deleteOverlay (s : PortalSys) : PortalSys :=
  { s with overlayLive := false, log := s.log ++ [.deleteOverlay] }

/-- Call `Script.clearInterval(p.timer)`. -/
def PortalSys.clearInterval (s : PortalSys) : PortalSys :=
  { s with pollScheduled := false, log := s.log ++ [.clearInterval] }

/-- Call `Script.clearTimeout(p.timeout)`. -/
def PortalSys.clearTimeout (s : PortalSys) : PortalSys :=
  { s with expiryPending := false, log := s.log ++ [.clearTimeout] }

/-- The inner function `start(broadcast)` (lines 51-112), run on the freshly built record. -/
def start (sp : Spawn) (p : PortalSys) (broadcast : Bool) : PortalSys :=
  let p : PortalSys :=
    { p with overlayLive := true
             log := p.log ++ [HostCall.addSphere p.pos p.color,
                              HostCall.addLabel p.pos p.color (labelText p.loc)] }
  let p : PortalSys :=
    { p with labelPending := true, log := p.log ++ [HostCall.setTimeout .label 100] }
  let p : PortalSys :=
    { p with expiryPending := true, log := p.log ++ [HostCall.setTimeout .expiry 30000] }
  let p : PortalSys :=
    if broadcast then
      p.call (.sendMessage "PORTAL_MESSAGE_CHANNEL"
        (.obj [("loc", .str p.loc),
               ("remoteData", .obj [("color", p.color), ("pos", p.pos)]),
               ("avatar", sp.userID),
               ("name", sp.displayName)]))
    else p
  let p : PortalSys :=
    { p with pollScheduled := true, log := p.log ++ [HostCall.setInterval .poll p.interval] }
  p.call .connectScriptEnding

/-- Lines 31-115: `portal.newPortal(loc, broadcast, remoteData)`. -/
def newPortal (sp : Spawn) (loc : String) (broadcast : Bool) (remoteData : JSVal) : PortalSys :=
  let p : PortalSys :=
    { loc := loc
      pos := sp.pos
      color := .obj [("red", .num (randomIntFromInterval sp.r1 100 255)),
                     ("green", .num (randomIntFromInterval sp.r2 100 255)),
                     ("blue", .num (randomIntFromInterval sp.r3 100 255))]
      interval := 500
      active := false
      overlayLive := false
      labelPending := false
      pollScheduled := false
      expiryPending := false
      log := [] }
  let p :=
    if truthy remoteData then
      let p := { p with color := (getProp remoteData "color").getD .undefined }
      { p with pos := (getProp remoteData "pos").getD .undefined }
    else p
  start sp p broadcast

/-- The label-size callback (lines 72-75). -/
def labelCallback (s : PortalSys) : PortalSys :=
  s.call .editLabel

/-- The expiry callback (lines 78-81). -/
def expiryCallback (s : PortalSys) : PortalSys :=
  s.deleteOverlay.clearInterval

/-- The proximity poll callback (lines 96-105); `within` is the value of
`Vec3.withinEpsilon(MyAvatar.position, p.pos, 0.75)` at this tick. -/
def pollCallback (within : Bool) (s : PortalSys) : PortalSys :=
  if within && s.active then
    (((s.call (.setLocation s.loc)).deleteOverlay).clearInterval).clearTimeout
  else if !within && !s.active then
    { s with active := true }
  else s

/-- The script-ending handler connected per portal (lines 108-111). -/
def endingCallback (s : PortalSys) : PortalSys :=
  s.clearInterval.deleteOverlay

/-- What the host can deliver to a portal. -/
inductive Event where
  /-- The 100 ms label-size timeout fires. -/
  | labelTimer
  /-- The proximity interval fires; the avatar is observed within the radius or not. -/
  | pollTimer (within : Bool)
  /-- The 30000 ms expiry timeout fires. -/
  | expiryTimer
  /-- The signal `Script.scriptEnding` is emitted. -/
  | scriptEnding
  deriving DecidableEq, Repr

/-- Delivery of one event by the host: a timeout fires once and only while scheduled, an interval
fires only while scheduled, the script-ending handler stays connected. -/
def fire (s : PortalSys) : Event → PortalSys
  | .labelTimer => if s.labelPending then labelCallback { s with labelPending := false } else s
  | .pollTimer within => if s.pollScheduled then pollCallback within s else s
  | .expiryTimer => if s.expiryPending then expiryCallback { s with expiryPending := false } else s
  | .scriptEnding => endingCallback s

/-- Delivery of a sequence of events, in order. -/
def run (s : PortalSys) (es : List Event) : PortalSys :=
  es.foldl fire s

/-! ## Trust gate (lines 27-28, 160-168, 198-221) -/

/-- The script variables `trusted` and `tempIgnore`. -/
structure GateState where
  /-- The array `trusted`. -/
  trusted : List JSVal
  /-- The array `tempIgnore`. -/
  tempIgnore : List JSVal

/-- What `messageReceived` does besides updating the two lists. -/
inductive Effect where
  /-- Call `Window.confirm(text)`. -/
  | confirm (text : String)
  /-- The call `portal.newPortal(loc, broadcast, remoteData)`. -/
  | newPortal (loc : String) (broadcast : Bool) (remoteData : JSVal)

/-- Is the effect a `Window.confirm` prompt? -/
def Effect.isConfirm : Effect → Bool
  | .confirm _ => true
  | _ => false

/-- Is the effect a `portal.newPortal` call? -/
def Effect.isNewPortal : Effect → Bool
  | .newPortal _ _ _ => true
  | _ => false

/-- Result of one handler run. -/
structure Outcome where
  /-- The two lists afterwards. -/
  st : GateState
  /-- Prompts shown and `portal.newPortal` calls made, in order. -/
  effects : List Effect
  /-- The portals created by those calls. -/
  portals : List PortalSys
  /-- The handler ended by raising an exception. -/
  raised : Bool

/-- Lines 160-168: `isTrusted(avatar)`, a `forEach` over `trusted` that sets a flag. -/
def isTrusted (trusted : List JSVal) (avatar : JSVal) : Bool :=
  trusted.foldl (fun trust user => if strictEq user avatar then true else trust) false

/-- The block `if (data.loc.search("hifi://") === 0) { portal.newPortal(data.loc, false,
data.remoteData); }`, written twice in the source (lines 205-207 and 213-215).  `data` is
neither `undefined` nor `null` when the block is reached; a `loc` that is not a string has no
callable `search` and raises. -/
def materialize (sp : Spawn) (data : JSVal) (o : Outcome) : Outcome :=
  match (getProp data "loc").getD .undefined with
  | .str l =>
    if searchHifiIsZero l then
      let rd := (getProp data "remoteData").getD .undefined
      { o with effects := o.effects ++ [.newPortal l false rd]
               portals := o.portals ++ [newPortal sp l false rd] }
    else o
  | _ => { o with raised := true }

/-- The prompt text `"Do you trust this user " + name + " to show portals?"` of line 209, with
`name` already converted to a string. -/
def confirmText (name : String) : String :=
  "Do you trust this user " ++ name ++ " to show portals?"

/-- Lines 198-221: `messageReceived(chan, msg, id)`.  `answer` is what the user answers if
`Window.confirm` is shown, `sp` the host readings if a portal is created. -/
def messageReceived (H : Host) (sp : Spawn) (answer : Bool) (s : GateState)
    (chan msg id : String) : Outcome :=
  if chan = "PORTAL_MESSAGE_CHANNEL" ∧ id ≠ H.sessionUUID then
    match H.jsonParse (.str msg) with
    | none => { st := s, effects := [], portals := [], raised := true }
    | some data =>
      match getProp data "avatar" with
      | none => { st := s, effects := [], portals := [], raised := true }
      | some avatar =>
        if indexOf s.tempIgnore avatar ≠ -1 then
          { st := s, effects := [], portals := [], raised := false }
        else if isTrusted s.trusted avatar then
          materialize sp data { st := s, effects := [], portals := [], raised := false }
        else
          match H.toStr ((getProp data "name").getD .undefined) with
          | none => { st := s, effects := [], portals := [], raised := true }
          | some name =>
            if answer then
              materialize sp data
                { st := { s with trusted := s.trusted ++ [avatar] }
                  effects := [.confirm (confirmText name)], portals := [], raised := false }
            else
              { st := { s with tempIgnore := s.tempIgnore ++ [avatar] }
                effects := [.confirm (confirmText name)], portals := [], raised := false }
  else
    { st := s, effects := [], portals := [], raised := false }

/-- One message delivered to the handler, with the host inputs of that delivery. -/
structure Delivery where
  /-- Channel name. -/
  chan : String
  /-- Message text. -/
  msg : String
  /-- Sender session id. -/
  id : String
  /-- Answer the user gives if prompted. -/
  answer : Bool
  /-- Host readings if a portal is created. -/
  sp : Spawn

/-- The two lists after a sequence of deliveries; a raised exception ends that handler run only. -/
def deliverAll (H : Host) (s : GateState) (ds : List Delivery) : GateState :=
  ds.foldl (fun s d => (messageReceived H d.sp d.answer s d.chan d.msg d.id).st) s

/-! ## Bookmark helpers (lines 170-179) -/

/-- The host settings store.  `Settings.setValue` keeps the script value it is given and
`Settings.getValue` hands it back. -/
abbrev SettingsStore := List (String × JSVal)

/-- Host call `Settings.getValue(key, dflt)`. -/
def settingsGetValue (st : SettingsStore) (key : String) (dflt : JSVal) : JSVal :=
  match st.lookup key with
  | some v => v
  | none => dflt

/-- Host call `Settings.setValue(key, v)`. -/
def settingsSetValue (st : SettingsStore) (key : String) (v : JSVal) : SettingsStore :=
  (key, v) :: st.filter (fun kv => kv.1 != key)

/-- How a helper can fail. -/
inductive JSError where
  /-- A script exception (SyntaxError from `JSON.parse`, TypeError from a property write). -/
  | raised
  /-- The parsed value is an array; property writes on arrays are outside this embedding. -/
  | arrayWrite
  deriving DecidableEq, Repr

/-- Fields of an object after `o[k] = v` for an ordinary property name `k`. -/
def setField (k : String) (v : JSVal) : List (String × JSVal) → List (String × JSVal)
  | [] => [(k, v)]
  | (k', v') :: rest => if k' = k then (k, v) :: rest else (k', v') :: setField k v rest

/-- The assignment `b[name] = location` (line 177): on an object it binds the property, on
`undefined` or `null` it raises, on another primitive it is dropped silently. -/
def assignProp (b : JSVal) (name : String) (location : JSVal) : Except JSError JSVal :=
  match b with
  | .obj fs => .ok (.obj (setField name location fs))
  | .undefined => .error .raised
  | .null => .error .raised
  | .arr _ => .error .arrayWrite
  | b => .ok b

/-- Lines 170-173: `getLocationBookmarks()`. -/
def getLocationBookmarks (st : SettingsStore) : JSVal :=
  settingsGetValue st "locationBookmarks" (.str "\x7b\x7d")

/-- Lines 175-179: `setLocationBookmarks(name, location)`; the result is the store afterwards. -/
def setLocationBookmarks (H : Host) (st : SettingsStore) (name : String) (location : JSVal) :
    Except JSError SettingsStore :=
  match H.jsonParse (settingsGetValue st "locationBookmarks" (.str "\x7b\x7d")) with
  | none => .error .raised
  | some b =>
    match assignProp b name location with
    | .error e => .error e
    | .ok b => .ok (settingsSetValue st "locationBookmarks" b)

/-! ## Concrete inputs used in the examples -/

/-- A colour as a peer sends it. -/
def peerColor : JSVal :=
  .obj [("red", .num 200), ("green", .num 120), ("blue", .num 255)]

/-- A position as a peer sends it. -/
def peerPos : JSVal :=
  .obj [("x", .num 10), ("y", .num 0), ("z", .num (-3))]

/-- The `remoteData` object of the example payloads. -/
def peerRemoteData : JSVal :=
  .obj [("color", peerColor), ("pos", peerPos)]

/-- Broadcast text of peer Bob for the locator `hifi://x/0,0,0`. -/
def textHifi : String :=
  "\x7b\"loc\":\"hifi://x/0,0,0\",\"remoteData\":\x7b\"color\":\x7b\"red\":200,\"green\":120,\"blue\":255\x7d,\"pos\":\x7b\"x\":10,\"y\":0,\"z\":-3\x7d\x7d,\"avatar\":\"portalDropper-bob\",\"name\":\"Bob\"\x7d"

/-- Broadcast text of peer Bob for the locator `https://example.com/`. -/
def textWeb : String :=
  "\x7b\"loc\":\"https://example.com/\",\"remoteData\":\x7b\"color\":\x7b\"red\":200,\"green\":120,\"blue\":255\x7d,\"pos\":\x7b\"x\":10,\"y\":0,\"z\":-3\x7d\x7d,\"avatar\":\"portalDropper-bob\",\"name\":\"Bob\"\x7d"

/-- A payload text without the field `avatar`. -/
def textNoAvatar : String :=
  "\x7b\"loc\":\"hifi://x/0,0,0\",\"remoteData\":\x7b\"color\":\x7b\"red\":200,\"green\":120,\"blue\":255\x7d,\"pos\":\x7b\"x\":10,\"y\":0,\"z\":-3\x7d\x7d,\"name\":\"Bob\"\x7d"

/-- A payload text without any of the four fields. -/
def textEmpty : String :=
  "\x7b\x7d"

/-- What `JSON.parse` returns on the texts above; every other argument used in the examples is
an object, on which `JSON.parse` raises (its string form `[object Object]` is not JSON). -/
def demoParse : JSVal → Option JSVal
  | .str s =>
    if s = textEmpty then some (.obj [])
    else if s = textHifi then
      some (.obj [("loc", .str "hifi://x/0,0,0"), ("remoteData", peerRemoteData),
                  ("avatar", .str "portalDropper-bob"), ("name", .str "Bob")])
    else if s = textWeb then
      some (.obj [("loc", .str "https://example.com/"), ("remoteData", peerRemoteData),
                  ("avatar", .str "portalDropper-bob"), ("name", .str "Bob")])
    else if s = textNoAvatar then
      some (.obj [("loc", .str "hifi://x/0,0,0"), ("remoteData", peerRemoteData),
                  ("name", .str "Bob")])
    else none
  | _ => none

/-- What string conversion gives on the values converted in the examples. -/
def demoToStr : JSVal → Option String
  | .str s => some s
  | .undefined => some "undefined"
  | .null => some "null"
  | .bool true => some "true"
  | .bool false => some "false"
  | _ => none

/-- A host for the examples. -/
def demoHost : Host :=
  { jsonParse := demoParse, toStr := demoToStr, sessionUUID := "session-me" }

/-- Host readings for the examples. -/
def demoSpawn : Spawn :=
  { pos := .obj [("x", .num 0), ("y", .num 1), ("z", .num 2)]
    r1 := 0
    r2 := 1 / 2
    r3 := 1 / 4
    userID := .str "portalDropper-me"
    displayName := .str "Me" }

/-- Peer Bob's identifier. -/
def bob : JSVal := .str "portalDropper-bob"

/-! # Theorems -/

/-! ## Facts about the list tests -/

theorem strictEq_eq_of_true {x y : JSVal} (h : strictEq x y = true) : x = y := by
  cases x <;> cases y <;> simp_all [strictEq]

theorem strictEq_str_self (a : String) : strictEq (.str a) (.str a) = true := by
  simp [strictEq]

theorem indexOfFrom_eq_neg_one (v : JSVal) (xs : List JSVal) (i : Nat) :
    indexOfFrom v xs i = -1 ↔ ∀ x ∈ xs, strictEq x v = false := by
  induction xs generalizing i with
  | nil => simp [indexOfFrom]
  | cons x rest ih =>
    by_cases hx : strictEq x v = true
    · simp only [indexOfFrom, hx, if_true, List.mem_cons, forall_eq_or_imp]
      constructor
      · intro h; omega
      · intro h; simp at h
    · simp only [Bool.not_eq_true] at hx
      simp [indexOfFrom, hx, ih]

theorem indexOf_eq_neg_one (xs : List JSVal) (v : JSVal) :
    indexOf xs v = -1 ↔ ∀ x ∈ xs, strictEq x v = false := by
  unfold indexOf
  exact indexOfFrom_eq_neg_one v xs 0

theorem isTrusted_foldl (avatar : JSVal) (xs : List JSVal) (b : Bool) :
    xs.foldl (fun trust user => if strictEq user avatar then true else trust) b
      = (b || xs.any (fun u => strictEq u avatar)) := by
  induction xs generalizing b with
  | nil => simp
  | cons x rest ih =>
    simp only [List.foldl_cons, List.any_cons, ih]
    cases strictEq x avatar <;> cases b <;> simp

theorem isTrusted_eq_true (xs : List JSVal) (v : JSVal) :
    isTrusted xs v = true ↔ ∃ u ∈ xs, strictEq u v = true := by
  unfold isTrusted
  rw [isTrusted_foldl]
  simp

theorem isTrusted_eq_false (xs : List JSVal) (v : JSVal) :
    isTrusted xs v = false ↔ ∀ u ∈ xs, strictEq u v = false := by
  unfold isTrusted
  rw [isTrusted_foldl]
  simp

theorem materialize_st (sp : Spawn) (data : JSVal) (o : Outcome) :
    (materialize sp data o).st = o.st := by
  unfold materialize
  split
  · split <;> rfl
  · rfl

theorem messageReceived_other_channel (H : Host) (sp : Spawn) (answer : Bool) (s : GateState)
    (chan msg id : String) (h : ¬ (chan = "PORTAL_MESSAGE_CHANNEL" ∧ id ≠ H.sessionUUID)) :
    messageReceived H sp answer s chan msg id
      = { st := s, effects := [], portals := [], raised := false } := by
  unfold messageReceived
  rw [if_neg h]

theorem messageReceived_processed (H : Host) (sp : Spawn) (answer : Bool) (s : GateState)
    (msg id : String) (data avatar : JSVal) (hid : id ≠ H.sessionUUID)
    (hparse : H.jsonParse (.str msg) = some data) (hav : getProp data "avatar" = some avatar) :
    messageReceived H sp answer s "PORTAL_MESSAGE_CHANNEL" msg id =
      if indexOf s.tempIgnore avatar ≠ -1 then
        { st := s, effects := [], portals := [], raised := false }
      else if isTrusted s.trusted avatar then
        materialize sp data { st := s, effects := [], portals := [], raised := false }
      else
        match H.toStr ((getProp data "name").getD .undefined) with
        | none => { st := s, effects := [], portals := [], raised := true }
        | some name =>
          if answer then
            materialize sp data
              { st := { s with trusted := s.trusted ++ [avatar] }
                effects := [.confirm (confirmText name)], portals := [], raised := false }
          else
            { st := { s with tempIgnore := s.tempIgnore ++ [avatar] }
              effects := [.confirm (confirmText name)], portals := [], raised := false } := by
  unfold messageReceived
  rw [if_pos ⟨rfl, hid⟩]
  simp only [hparse, hav]

theorem materialize_hifi (sp : Spawn) (data : JSVal) (o : Outcome) (l : String)
    (hloc : getProp data "loc" = some (.str l)) (hh : searchHifiIsZero l = true) :
    materialize sp data o =
      { o with effects := o.effects ++ [.newPortal l false ((getProp data "remoteData").getD .undefined)]
               portals := o.portals ++ [newPortal sp l false ((getProp data "remoteData").getD .undefined)] } := by
  unfold materialize
  simp [hloc, hh]

theorem materialize_not_hifi (sp : Spawn) (data : JSVal) (o : Outcome) (l : String)
    (hloc : getProp data "loc" = some (.str l)) (hh : searchHifiIsZero l = false) :
    materialize sp data o = o := by
  unfold materialize
  simp [hloc, hh]

theorem materialize_confirms (sp : Spawn) (data : JSVal) (o : Outcome) :
    (materialize sp data o).effects.countP Effect.isConfirm = o.effects.countP Effect.isConfirm := by
  unfold materialize
  split
  · split
    · simp [List.countP_append, Effect.isConfirm]
    · rfl
  · rfl

theorem messageReceived_keeps_unique (H : Host) (sp : Spawn) (answer : Bool) (s : GateState)
    (chan msg id : String)
    (hstr : ∀ data, H.jsonParse (.str msg) = some data →
      ∀ v, getProp data "avatar" = some v → ∃ a, v = JSVal.str a)
    (h1 : s.trusted.Nodup) (h2 : s.tempIgnore.Nodup)
    (h3 : List.Disjoint s.trusted s.tempIgnore) :
    (messageReceived H sp answer s chan msg id).st.trusted.Nodup ∧
    (messageReceived H sp answer s chan msg id).st.tempIgnore.Nodup ∧
    List.Disjoint (messageReceived H sp answer s chan msg id).st.trusted
      (messageReceived H sp answer s chan msg id).st.tempIgnore := by
  by_cases hc : chan = "PORTAL_MESSAGE_CHANNEL" ∧ id ≠ H.sessionUUID
  · obtain ⟨rfl, hid⟩ := hc
    cases hparse : H.jsonParse (.str msg) with
    | none =>
      have : messageReceived H sp answer s "PORTAL_MESSAGE_CHANNEL" msg id
          = { st := s, effects := [], portals := [], raised := true } := by
        unfold messageReceived
        rw [if_pos ⟨rfl, hid⟩]
        simp only [hparse]
      rw [this]
      exact ⟨h1, h2, h3⟩
    | some data =>
      cases hav : getProp data "avatar" with
      | none =>
        have : messageReceived H sp answer s "PORTAL_MESSAGE_CHANNEL" msg id
            = { st := s, effects := [], portals := [], raised := true } := by
          unfold messageReceived
          rw [if_pos ⟨rfl, hid⟩]
          simp only [hparse, hav]
        rw [this]
        exact ⟨h1, h2, h3⟩
      | some avatar =>
        obtain ⟨a, rfl⟩ := hstr data hparse avatar hav
        rw [messageReceived_processed H sp answer s msg id data _ hid hparse hav]
        by_cases hi : indexOf s.tempIgnore (.str a) = -1
        · have hni : JSVal.str a ∉ s.tempIgnore := fun hm => by
            have := (indexOf_eq_neg_one _ _).1 hi _ hm
            simp [strictEq] at this
          rw [if_neg (not_not.2 hi)]
          cases ht : isTrusted s.trusted (.str a)
          · have hnt : JSVal.str a ∉ s.trusted := fun hm => by
              have := (isTrusted_eq_false _ _).1 ht _ hm
              simp [strictEq] at this
            cases hn : H.toStr ((getProp data "name").getD .undefined) with
            | none =>
              simp only [Bool.false_eq_true, if_false]
              exact ⟨h1, h2, h3⟩
            | some name =>
              cases answer
              · simp only [Bool.false_eq_true, if_false]
                refine ⟨h1, ?_, ?_⟩
                · exact List.Nodup.append h2 (List.nodup_singleton _) (by simpa using hni)
                · simp only [List.disjoint_append_right, List.disjoint_singleton]
                  exact ⟨h3, hnt⟩
              · simp only [Bool.false_eq_true, if_false, if_true, materialize_st]
                refine ⟨?_, h2, ?_⟩
                · exact List.Nodup.append h1 (List.nodup_singleton _) (by simpa using hnt)
                · simp only [List.disjoint_append_left, List.singleton_disjoint]
                  exact ⟨h3, hni⟩
          · simp only [if_true, materialize_st]
            exact ⟨h1, h2, h3⟩
        · rw [if_pos hi]
          exact ⟨h1, h2, h3⟩
  · rw [messageReceived_other_channel _ _ _ _ _ _ _ hc]
    exact ⟨h1, h2, h3⟩

theorem deliverAll_keeps_unique (H : Host) (ds : List Delivery) (s : GateState)
    (hstr : ∀ d ∈ ds, ∀ data, H.jsonParse (.str d.msg) = some data →
      ∀ v, getProp data "avatar" = some v → ∃ a, v = JSVal.str a)
    (h1 : s.trusted.Nodup) (h2 : s.tempIgnore.Nodup)
    (h3 : List.Disjoint s.trusted s.tempIgnore) :
    (deliverAll H s ds).trusted.Nodup ∧ (deliverAll H s ds).tempIgnore.Nodup ∧
    List.Disjoint (deliverAll H s ds).trusted (deliverAll H s ds).tempIgnore := by
  induction ds generalizing s with
  | nil => exact ⟨h1, h2, h3⟩
  | cons d rest ih =>
    have hd := messageReceived_keeps_unique H d.sp d.answer s d.chan d.msg d.id
      (hstr d (List.mem_cons_self _ _)) h1 h2 h3
    have := ih (messageReceived H d.sp d.answer s d.chan d.msg d.id).st
      (fun d' hd' => hstr d' (List.mem_cons_of_mem _ hd')) hd.1 hd.2.1 hd.2.2
    simpa [deliverAll] using this

/-! ## Trust gate: claims -/

/-- Claim C2. A message on the portal channel from another session whose payload names, as `avatar`,
a string identifier already held in `tempIgnore` is dropped: no `Window.confirm` prompt, no
`portal.newPortal` call, `trusted` and `tempIgnore` unchanged, nothing raised. -/
theorem ignored_sender_is_dropped (H : Host) (sp : Spawn) (answer : Bool) (s : GateState)
    (msg id : String) (data : JSVal) (a : String)
    (hign : JSVal.str a ∈ s.tempIgnore) (hid : id ≠ H.sessionUUID)
    (hparse : H.jsonParse (.str msg) = some data)
    (hav : getProp data "avatar" = some (.str a)) :
    messageReceived H sp answer s "PORTAL_MESSAGE_CHANNEL" msg id
      = { st := s, effects := [], portals := [], raised := false } := by
  rw [messageReceived_processed H sp answer s msg id data _ hid hparse hav]
  have hi : indexOf s.tempIgnore (.str a) ≠ -1 := by
    intro h
    have := (indexOf_eq_neg_one _ _).1 h _ hign
    simp [strictEq] at this
  rw [if_pos hi]

/-- Instance of claim C2: Bob is in `tempIgnore` and broadcasts again; even with a user who would
accept, the handler does nothing. -/
theorem ignored_sender_is_dropped_witness :
    bob ∈ [bob] ∧ "session-bob" ≠ demoHost.sessionUUID ∧
    messageReceived demoHost demoSpawn true { trusted := [], tempIgnore := [bob] }
        "PORTAL_MESSAGE_CHANNEL" textHifi "session-bob"
      = { st := { trusted := [], tempIgnore := [bob] }, effects := [], portals := [],
          raised := false } :=
  ⟨List.mem_singleton.2 rfl, by decide,
   ignored_sender_is_dropped demoHost demoSpawn true { trusted := [], tempIgnore := [bob] }
     textHifi "session-bob" _ "portalDropper-bob" (List.mem_singleton.2 rfl) (by decide) rfl rfl⟩

/-- Claim C5. A message whose sender id is `MyAvatar.sessionUUID` is skipped whatever the channel,
the text and the state: no portal, no prompt, both lists unchanged, nothing raised. -/
theorem self_message_is_skipped (H : Host) (sp : Spawn) (answer : Bool) (s : GateState)
    (chan msg : String) :
    messageReceived H sp answer s chan msg H.sessionUUID
      = { st := s, effects := [], portals := [], raised := false } :=
  messageReceived_other_channel H sp answer s chan msg H.sessionUUID (fun h => h.2 rfl)

/-- Claim C3 as stated fails: Bob is in neither list, the user accepts, Bob is appended to `trusted`,
but the payload's `loc` is `https://example.com/` and no portal is created. -/
theorem accepted_sender_without_portal :
    (∀ u ∈ ([] : List JSVal), strictEq u bob = false) ∧
    demoHost.jsonParse (.str textWeb)
      = some (.obj [("loc", .str "https://example.com/"), ("remoteData", peerRemoteData),
                    ("avatar", bob), ("name", .str "Bob")]) ∧
    (messageReceived demoHost demoSpawn true { trusted := [], tempIgnore := [] }
        "PORTAL_MESSAGE_CHANNEL" textWeb "session-bob")
      = { st := { trusted := [bob], tempIgnore := [] }
          effects := [.confirm "Do you trust this user Bob to show portals?"]
          portals := [], raised := false } :=
  ⟨by simp, rfl, rfl⟩

/-- Claim C3, amended. For a message on the portal channel from another session whose sender
(`data.avatar`) is strictly equal to no element of `trusted` and none of `tempIgnore`, and whose
`name` converts to a string, the user is prompted exactly once.  On decline the sender is
appended to `tempIgnore` and nothing else happens.  On accept the sender is appended to
`trusted`; then, for a string `loc`, the portal is created by
`portal.newPortal(loc, false, remoteData)` when `loc` begins with `hifi://`, and no portal is
created when it does not. -/
theorem unknown_sender_is_prompted (H : Host) (sp : Spawn) (s : GateState)
    (msg id : String) (data avatar : JSVal) (name : String) (hid : id ≠ H.sessionUUID)
    (hparse : H.jsonParse (.str msg) = some data)
    (hav : getProp data "avatar" = some avatar)
    (hname : H.toStr ((getProp data "name").getD .undefined) = some name)
    (hnt : ∀ u ∈ s.trusted, strictEq u avatar = false)
    (hni : ∀ u ∈ s.tempIgnore, strictEq u avatar = false) :
    (∀ answer, (messageReceived H sp answer s "PORTAL_MESSAGE_CHANNEL" msg id).effects.countP
        Effect.isConfirm = 1) ∧
    messageReceived H sp false s "PORTAL_MESSAGE_CHANNEL" msg id
      = { st := { trusted := s.trusted, tempIgnore := s.tempIgnore ++ [avatar] }
          effects := [.confirm (confirmText name)]
          portals := [], raised := false } ∧
    (messageReceived H sp true s "PORTAL_MESSAGE_CHANNEL" msg id).st
      = { trusted := s.trusted ++ [avatar], tempIgnore := s.tempIgnore } ∧
    (∀ l, getProp data "loc" = some (.str l) → searchHifiIsZero l = true →
      messageReceived H sp true s "PORTAL_MESSAGE_CHANNEL" msg id
        = { st := { trusted := s.trusted ++ [avatar], tempIgnore := s.tempIgnore }
            effects := [.confirm (confirmText name),
                        .newPortal l false ((getProp data "remoteData").getD .undefined)]
            portals := [newPortal sp l false ((getProp data "remoteData").getD .undefined)]
            raised := false }) ∧
    (∀ l, getProp data "loc" = some (.str l) → searchHifiIsZero l = false →
      messageReceived H sp true s "PORTAL_MESSAGE_CHANNEL" msg id
        = { st := { trusted := s.trusted ++ [avatar], tempIgnore := s.tempIgnore }
            effects := [.confirm (confirmText name)]
            portals := [], raised := false }) := by
  have hi : ¬ indexOf s.tempIgnore avatar ≠ -1 := not_not.2 ((indexOf_eq_neg_one _ _).2 hni)
  have ht : isTrusted s.trusted avatar = false := (isTrusted_eq_false _ _).2 hnt
  have key : ∀ answer, messageReceived H sp answer s "PORTAL_MESSAGE_CHANNEL" msg id =
      if answer then
        materialize sp data
          { st := { s with trusted := s.trusted ++ [avatar] }
            effects := [.confirm (confirmText name)]
            portals := [], raised := false }
      else
        { st := { s with tempIgnore := s.tempIgnore ++ [avatar] }
          effects := [.confirm (confirmText name)]
          portals := [], raised := false } := by
    intro answer
    rw [messageReceived_processed H sp answer s msg id data _ hid hparse hav, if_neg hi, ht]
    simp [hname]
  refine ⟨?_, ?_, ?_, ?_, ?_⟩
  · intro answer
    rw [key]
    cases answer
    · simp [Effect.isConfirm]
    · simp [materialize_confirms, Effect.isConfirm]
  · rw [key]; simp
  · rw [key]; simp [materialize_st]
  · intro l hloc hh
    rw [key]
    simp [materialize_hifi sp data _ l hloc hh]
  · intro l hloc hh
    rw [key]
    simp [materialize_not_hifi sp data _ l hloc hh]

/-- Instance of claim C3 (amended): Bob, unknown, broadcasts `hifi://x/0,0,0`. -/
theorem unknown_sender_is_prompted_witness :
    messageReceived demoHost demoSpawn true { trusted := [], tempIgnore := [] }
        "PORTAL_MESSAGE_CHANNEL" textHifi "session-bob"
      = { st := { trusted := [bob], tempIgnore := [] }
          effects := [.confirm "Do you trust this user Bob to show portals?",
                      .newPortal "hifi://x/0,0,0" false peerRemoteData]
          portals := [newPortal demoSpawn "hifi://x/0,0,0" false peerRemoteData]
          raised := false } :=
  (unknown_sender_is_prompted demoHost demoSpawn { trusted := [], tempIgnore := [] }
    textHifi "session-bob" _ bob "Bob" (by decide) rfl rfl rfl (by simp) (by simp)).2.2.2.1
    "hifi://x/0,0,0" rfl (by decide)

theorem getProp_of_truthy (rd : JSVal) (k : String) (h : truthy rd = true) :
    getProp rd k = some ((getProp rd k).getD .undefined) := by
  cases rd <;> simp_all [truthy, getProp]

theorem newPortal_status (sp : Spawn) (loc : String) (broadcast : Bool) (rd : JSVal) :
    (newPortal sp loc broadcast rd).loc = loc ∧
    (newPortal sp loc broadcast rd).interval = 500 ∧
    (newPortal sp loc broadcast rd).active = false ∧
    (newPortal sp loc broadcast rd).overlayLive = true ∧
    (newPortal sp loc broadcast rd).labelPending = true ∧
    (newPortal sp loc broadcast rd).pollScheduled = true ∧
    (newPortal sp loc broadcast rd).expiryPending = true := by
  cases broadcast <;> cases h : truthy rd <;> simp [newPortal, start, h, PortalSys.call]

theorem newPortal_remote (sp : Spawn) (loc : String) (broadcast : Bool) (rd : JSVal)
    (h : truthy rd = true) :
    (newPortal sp loc broadcast rd).pos = (getProp rd "pos").getD .undefined ∧
    (newPortal sp loc broadcast rd).color = (getProp rd "color").getD .undefined := by
  cases broadcast <;> simp [newPortal, start, h, PortalSys.call]

theorem newPortal_local (sp : Spawn) (loc : String) (broadcast : Bool) (rd : JSVal)
    (h : truthy rd = false) :
    (newPortal sp loc broadcast rd).pos = sp.pos ∧
    (newPortal sp loc broadcast rd).color
      = .obj [("red", .num (randomIntFromInterval sp.r1 100 255)),
              ("green", .num (randomIntFromInterval sp.r2 100 255)),
              ("blue", .num (randomIntFromInterval sp.r3 100 255))] := by
  cases broadcast <;> simp [newPortal, start, h, PortalSys.call]

theorem newPortal_log (sp : Spawn) (loc : String) (broadcast : Bool) (rd : JSVal) :
    (newPortal sp loc broadcast rd).log =
      [HostCall.addSphere (newPortal sp loc broadcast rd).pos (newPortal sp loc broadcast rd).color,
       HostCall.addLabel (newPortal sp loc broadcast rd).pos (newPortal sp loc broadcast rd).color
         (labelText loc),
       HostCall.setTimeout .label 100,
       HostCall.setTimeout .expiry 30000]
      ++ (if broadcast then
            [HostCall.sendMessage "PORTAL_MESSAGE_CHANNEL"
              (.obj [("loc", .str loc),
                     ("remoteData", .obj [("color", (newPortal sp loc broadcast rd).color),
                                          ("pos", (newPortal sp loc broadcast rd).pos)]),
                     ("avatar", sp.userID), ("name", sp.displayName)])]
          else [])
      ++ [HostCall.setInterval .poll 500, HostCall.connectScriptEnding] := by
  cases broadcast <;> cases h : truthy rd <;> simp [newPortal, start, h, PortalSys.call]

/-- Claim C4 as stated fails: Bob is in `trusted` and broadcasts the locator `https://example.com/`;
the handler neither prompts nor creates a portal. -/
theorem trusted_sender_without_portal :
    isTrusted [bob] bob = true ∧
    messageReceived demoHost demoSpawn true { trusted := [bob], tempIgnore := [] }
        "PORTAL_MESSAGE_CHANNEL" textWeb "session-bob"
      = { st := { trusted := [bob], tempIgnore := [] }, effects := [], portals := [],
          raised := false } :=
  ⟨by decide, rfl⟩

/-- Claim C4, amended. In a state where no identifier is in both lists, a broadcast from another
session whose sender is in `trusted`, whose `loc` is a string beginning with `hifi://` and which
carries a (truthy) `remoteData` creates exactly one portal and shows no prompt; the portal's
`pos` and `color` are `remoteData.pos` and `remoteData.color`, whatever the avatar-forward
position and the random samples are, and it starts with `active = false`. -/
theorem trusted_sender_gets_remote_portal (H : Host) (sp : Spawn) (answer : Bool)
    (s : GateState) (msg id : String) (data avatar rd : JSVal) (l : String)
    (hid : id ≠ H.sessionUUID)
    (hparse : H.jsonParse (.str msg) = some data)
    (hav : getProp data "avatar" = some avatar)
    (hdisj : List.Disjoint s.trusted s.tempIgnore)
    (htr : ∃ u ∈ s.trusted, strictEq u avatar = true)
    (hloc : getProp data "loc" = some (.str l)) (hh : searchHifiIsZero l = true)
    (hrd : getProp data "remoteData" = some rd) (hobj : truthy rd = true) :
    messageReceived H sp answer s "PORTAL_MESSAGE_CHANNEL" msg id
      = { st := s, effects := [.newPortal l false rd]
          portals := [newPortal sp l false rd], raised := false } ∧
    getProp rd "pos" = some (newPortal sp l false rd).pos ∧
    getProp rd "color" = some (newPortal sp l false rd).color ∧
    (newPortal sp l false rd).loc = l ∧
    (newPortal sp l false rd).active = false := by
  obtain ⟨u, hu, hua⟩ := htr
  have hmem : avatar ∈ s.trusted := strictEq_eq_of_true hua ▸ hu
  have hi : ¬ indexOf s.tempIgnore avatar ≠ -1 := by
    rw [not_not, indexOf_eq_neg_one]
    intro w hw
    cases hwa : strictEq w avatar
    · rfl
    · exact absurd (strictEq_eq_of_true hwa ▸ hw) (fun hm => hdisj hmem hm)
  have ht : isTrusted s.trusted avatar = true := (isTrusted_eq_true _ _).2 ⟨u, hu, hua⟩
  refine ⟨?_, ?_, ?_, (newPortal_status sp l false rd).1, (newPortal_status sp l false rd).2.2.1⟩
  · rw [messageReceived_processed H sp answer s msg id data _ hid hparse hav, if_neg hi, ht,
      if_pos rfl, materialize_hifi sp data _ l hloc hh]
    simp [hrd]
  · rw [(newPortal_remote sp l false rd hobj).1]
    exact getProp_of_truthy rd "pos" hobj
  · rw [(newPortal_remote sp l false rd hobj).2]
    exact getProp_of_truthy rd "color" hobj

/-- Instance of claim C4 (amended): trusted Bob broadcasts `hifi://x/0,0,0`; the portal sits at Bob's
position with Bob's colour. -/
theorem trusted_sender_gets_remote_portal_witness :
    messageReceived demoHost demoSpawn false { trusted := [bob], tempIgnore := [] }
        "PORTAL_MESSAGE_CHANNEL" textHifi "session-bob"
      = { st := { trusted := [bob], tempIgnore := [] }
          effects := [.newPortal "hifi://x/0,0,0" false peerRemoteData]
          portals := [newPortal demoSpawn "hifi://x/0,0,0" false peerRemoteData]
          raised := false } ∧
    (newPortal demoSpawn "hifi://x/0,0,0" false peerRemoteData).pos = peerPos ∧
    (newPortal demoSpawn "hifi://x/0,0,0" false peerRemoteData).color = peerColor :=
  have h := trusted_sender_gets_remote_portal demoHost demoSpawn false
    { trusted := [bob], tempIgnore := [] } textHifi "session-bob" _ bob peerRemoteData
    "hifi://x/0,0,0" (by decide) rfl rfl (by simp) ⟨bob, List.mem_singleton.2 rfl, by decide⟩
    rfl (by decide) rfl (by decide)
  ⟨h.1, rfl, rfl⟩

/-- Claim C8 as stated fails.  The payload `{}` lacks all four fields; from another session, with
both lists empty and a user who accepts, the handler prompts, appends `undefined` to `trusted`
and raises.  A payload lacking only `avatar` is prompted for and produces a portal. -/
theorem missing_fields_are_not_ignored :
    demoHost.jsonParse (.str textEmpty) = some (.obj []) ∧
    messageReceived demoHost demoSpawn true { trusted := [], tempIgnore := [] }
        "PORTAL_MESSAGE_CHANNEL" textEmpty "session-bob"
      = { st := { trusted := [.undefined], tempIgnore := [] }
          effects := [.confirm "Do you trust this user undefined to show portals?"]
          portals := [], raised := true } ∧
    messageReceived demoHost demoSpawn true { trusted := [], tempIgnore := [] }
        "PORTAL_MESSAGE_CHANNEL" textNoAvatar "session-bob"
      = { st := { trusted := [.undefined], tempIgnore := [] }
          effects := [.confirm "Do you trust this user Bob to show portals?",
                      .newPortal "hifi://x/0,0,0" false peerRemoteData]
          portals := [newPortal demoSpawn "hifi://x/0,0,0" false peerRemoteData]
          raised := false } :=
  ⟨rfl, rfl, rfl⟩

/-- Claim C8, amended. A message on a channel other than `PORTAL_MESSAGE_CHANNEL` is ignored: the
handler completes without raising, shows no prompt, creates no portal and leaves `trusted` and
`tempIgnore` unchanged. -/
theorem other_channel_is_ignored (H : Host) (sp : Spawn) (answer : Bool) (s : GateState)
    (chan msg id : String) (hchan : chan ≠ "PORTAL_MESSAGE_CHANNEL") :
    messageReceived H sp answer s chan msg id
      = { st := s, effects := [], portals := [], raised := false } :=
  messageReceived_other_channel H sp answer s chan msg id (fun h => hchan h.1)

/-- Instance of claim C8 (amended): Bob's broadcast text arriving on another channel. -/
theorem other_channel_is_ignored_witness :
    messageReceived demoHost demoSpawn true { trusted := [], tempIgnore := [] }
        "com.highfidelity.chat" textHifi "session-bob"
      = { st := { trusted := [], tempIgnore := [] }, effects := [], portals := [],
          raised := false } :=
  other_channel_is_ignored demoHost demoSpawn true { trusted := [], tempIgnore := [] }
    "com.highfidelity.chat" textHifi "session-bob" (by decide)

/-- Claim C10. Starting from `trusted = []` and `tempIgnore = []`, after any finite sequence of
`messageReceived` calls (any channels, texts, sender ids and answers) in which every payload that
parses has a string-valued `avatar`, no identifier occurs twice in `trusted`, none occurs twice
in `tempIgnore`, and none occurs in both. -/
theorem trust_lists_stay_unique (H : Host) (ds : List Delivery)
    (hstr : ∀ d ∈ ds, ∀ data, H.jsonParse (.str d.msg) = some data →
      ∀ v, getProp data "avatar" = some v → ∃ a, v = JSVal.str a) :
    (deliverAll H { trusted := [], tempIgnore := [] } ds).trusted.Nodup ∧
    (deliverAll H { trusted := [], tempIgnore := [] } ds).tempIgnore.Nodup ∧
    List.Disjoint (deliverAll H { trusted := [], tempIgnore := [] } ds).trusted
      (deliverAll H { trusted := [], tempIgnore := [] } ds).tempIgnore :=
  deliverAll_keeps_unique H ds { trusted := [], tempIgnore := [] } hstr List.nodup_nil
    List.nodup_nil (List.disjoint_nil_left _)

/-- Instance of claim C10: Bob broadcasts three times; the user accepts the first time and would
decline afterwards. -/
theorem trust_lists_stay_unique_witness :
    deliverAll demoHost { trusted := [], tempIgnore := [] }
        [{ chan := "PORTAL_MESSAGE_CHANNEL", msg := textHifi, id := "session-bob", answer := true,
           sp := demoSpawn },
         { chan := "PORTAL_MESSAGE_CHANNEL", msg := textWeb, id := "session-bob", answer := false,
           sp := demoSpawn },
         { chan := "PORTAL_MESSAGE_CHANNEL", msg := textHifi, id := "session-bob", answer := false,
           sp := demoSpawn }]
      = { trusted := [bob], tempIgnore := [] } ∧
    [bob].Nodup :=
  ⟨rfl,
   (trust_lists_stay_unique demoHost
      [{ chan := "PORTAL_MESSAGE_CHANNEL", msg := textHifi, id := "session-bob", answer := true,
         sp := demoSpawn },
       { chan := "PORTAL_MESSAGE_CHANNEL", msg := textWeb, id := "session-bob", answer := false,
         sp := demoSpawn },
       { chan := "PORTAL_MESSAGE_CHANNEL", msg := textHifi, id := "session-bob", answer := false,
         sp := demoSpawn }]
      (by
        intro d hd data hp v hv
        simp only [List.mem_cons, List.mem_singleton, List.not_mem_nil, or_false] at hd
        rcases hd with rfl | rfl | rfl
        · have h0 : demoHost.jsonParse (.str textHifi) = some (.obj [("loc", .str "hifi://x/0,0,0"),
              ("remoteData", peerRemoteData), ("avatar", .str "portalDropper-bob"),
              ("name", .str "Bob")]) := rfl
          rw [h0] at hp
          cases hp
          cases hv
          exact ⟨_, rfl⟩
        · have h0 : demoHost.jsonParse (.str textWeb) = some (.obj [("loc", .str "https://example.com/"),
              ("remoteData", peerRemoteData), ("avatar", .str "portalDropper-bob"),
              ("name", .str "Bob")]) := rfl
          rw [h0] at hp
          cases hp
          cases hv
          exact ⟨_, rfl⟩
        · have h0 : demoHost.jsonParse (.str textHifi) = some (.obj [("loc", .str "hifi://x/0,0,0"),
              ("remoteData", peerRemoteData), ("avatar", .str "portalDropper-bob"),
              ("name", .str "Bob")]) := rfl
          rw [h0] at hp
          cases hp
          cases hv
          exact ⟨_, rfl⟩)).1⟩

/-! ## Portal life cycle: claims -/

theorem fire_poll_inside_pending (s : PortalSys) (h : s.active = false) :
    fire s (.pollTimer true) = s := by
  simp [fire, pollCallback, h]

theorem run_polls_inside_pending (s : PortalSys) (h : s.active = false) (ticks : List Bool)
    (hin : ∀ w ∈ ticks, w = true) : run s (ticks.map Event.pollTimer) = s := by
  induction ticks with
  | nil => rfl
  | cons w rest ih =>
    have hw : w = true := hin w (List.mem_cons_self _ _)
    subst hw
    have hrest := ih (fun w hw => hin w (List.mem_cons_of_mem _ hw))
    simpa [run, fire_poll_inside_pending s h] using hrest

theorem newPortal_log_clean (sp : Spawn) (loc : String) (broadcast : Bool) (rd : JSVal) :
    ∀ c ∈ (newPortal sp loc broadcast rd).log,
      c.isSetLocation = false ∧ c.isRelease = false := by
  rw [newPortal_log]
  cases broadcast <;>
    simp [HostCall.isSetLocation, HostCall.isRelease, HostCall.isDeleteOverlay,
      HostCall.isClearInterval, HostCall.isClearTimeout]

/-- Claim C1. For a portal just created by `portal.newPortal` (any arguments) and any finite sequence
of proximity-poll ticks that all observe the avatar within the radius, after every tick the
portal is exactly as at creation: `p.active` is false, the overlay and the timers are in place,
and the log of host calls is the creation log, which holds no `location = p.loc`, no
`deleteOverlay`, no `clearInterval` and no `clearTimeout`. -/
theorem pending_portal_blocks_self_trigger (sp : Spawn) (loc : String) (broadcast : Bool)
    (rd : JSVal) (ticks : List Bool) (hin : ∀ w ∈ ticks, w = true) :
    (∀ k, run (newPortal sp loc broadcast rd) ((ticks.take k).map Event.pollTimer)
        = newPortal sp loc broadcast rd) ∧
    (newPortal sp loc broadcast rd).active = false ∧
    (newPortal sp loc broadcast rd).overlayLive = true ∧
    (newPortal sp loc broadcast rd).pollScheduled = true ∧
    (newPortal sp loc broadcast rd).expiryPending = true ∧
    (∀ c ∈ (newPortal sp loc broadcast rd).log,
      c.isSetLocation = false ∧ c.isRelease = false) := by
  have hs := newPortal_status sp loc broadcast rd
  refine ⟨?_, hs.2.2.1, hs.2.2.2.1, hs.2.2.2.2.2.1, hs.2.2.2.2.2.2,
    newPortal_log_clean sp loc broadcast rd⟩
  intro k
  exact run_polls_inside_pending _ hs.2.2.1 _ (fun w hw => hin w (List.mem_of_mem_take hw))

/-- Instance of claim C1: the creator drops a portal and stands on it for three poll ticks. -/
theorem pending_portal_blocks_self_trigger_witness :
    run (newPortal demoSpawn "hifi://x/0,0,0" true .undefined)
        ([true, true, true].map Event.pollTimer)
      = newPortal demoSpawn "hifi://x/0,0,0" true .undefined ∧
    (newPortal demoSpawn "hifi://x/0,0,0" true .undefined).active = false :=
  have h := pending_portal_blocks_self_trigger demoSpawn "hifi://x/0,0,0" true .undefined
    [true, true, true] (by decide)
  ⟨h.1 3, h.2.1⟩

theorem fire_log_grows (s : PortalSys) (e : Event) : ∃ l, (fire s e).log = s.log ++ l := by
  cases e with
  | labelTimer =>
    by_cases h : s.labelPending = true
    · exact ⟨[.editLabel], by simp [fire, h, labelCallback, PortalSys.call]⟩
    · exact ⟨[], by simp [fire, h]⟩
  | pollTimer w =>
    by_cases h : s.pollScheduled = true
    · cases w <;> cases ha : s.active
      · exact ⟨[], by simp [fire, h, pollCallback, ha]⟩
      · exact ⟨[], by simp [fire, h, pollCallback, ha]⟩
      · exact ⟨[], by simp [fire, h, pollCallback, ha]⟩
      · exact ⟨[.setLocation s.loc, .deleteOverlay, .clearInterval, .clearTimeout], by
          simp [fire, h, pollCallback, ha, PortalSys.call, PortalSys.deleteOverlay,
            PortalSys.clearInterval, PortalSys.clearTimeout]⟩
    · exact ⟨[], by simp [fire, h]⟩
  | expiryTimer =>
    by_cases h : s.expiryPending = true
    · exact ⟨[.deleteOverlay, .clearInterval], by
        simp [fire, h, expiryCallback, PortalSys.deleteOverlay, PortalSys.clearInterval]⟩
    · exact ⟨[], by simp [fire, h]⟩
  | scriptEnding =>
    exact ⟨[.clearInterval, .deleteOverlay], by
      simp [fire, endingCallback, PortalSys.deleteOverlay, PortalSys.clearInterval]⟩

/-- Before any terminal event: under label and poll events a portal is either consumed (its log
holds `location = p.loc`) or still owns its overlay and timers, with no release call logged. -/
theorem fire_pre_expiry (s : PortalSys) (e : Event)
    (he : e = .labelTimer ∨ ∃ w, e = .pollTimer w)
    (h : s.log.any HostCall.isSetLocation = true ∨
      (s.overlayLive = true ∧ s.pollScheduled = true ∧ s.expiryPending = true ∧
        s.log.countP HostCall.isDeleteOverlay = 0 ∧ s.log.countP HostCall.isClearInterval = 0)) :
    (fire s e).log.any HostCall.isSetLocation = true ∨
      ((fire s e).overlayLive = true ∧ (fire s e).pollScheduled = true ∧
        (fire s e).expiryPending = true ∧
        (fire s e).log.countP HostCall.isDeleteOverlay = 0 ∧
        (fire s e).log.countP HostCall.isClearInterval = 0) := by
  rcases h with h | ⟨h1, h2, h3, h4, h5⟩
  · left
    obtain ⟨l, hl⟩ := fire_log_grows s e
    rw [hl, List.any_append, h, Bool.true_or]
  · rcases he with rfl | ⟨w, rfl⟩
    · right
      by_cases hp : s.labelPending = true
      · simp [fire, hp, labelCallback, PortalSys.call, h1, h2, h3, h4, h5, List.countP_append,
          HostCall.isDeleteOverlay, HostCall.isClearInterval]
      · simp [fire, hp, h1, h2, h3, h4, h5]
    · cases w <;> cases ha : s.active
      · right; simp [fire, pollCallback, ha, h1, h2, h3, h4, h5]
      · right; simp [fire, pollCallback, ha, h1, h2, h3, h4, h5]
      · right; simp [fire, pollCallback, ha, h1, h2, h3, h4, h5]
      · left
        simp [fire, pollCallback, ha, h2, PortalSys.call, PortalSys.deleteOverlay,
          PortalSys.clearInterval, PortalSys.clearTimeout, HostCall.isSetLocation]

theorem run_pre_expiry (s : PortalSys) (pre : List Event)
    (hpre : ∀ e ∈ pre, e = .labelTimer ∨ ∃ w, e = .pollTimer w)
    (h : s.log.any HostCall.isSetLocation = true ∨
      (s.overlayLive = true ∧ s.pollScheduled = true ∧ s.expiryPending = true ∧
        s.log.countP HostCall.isDeleteOverlay = 0 ∧ s.log.countP HostCall.isClearInterval = 0)) :
    (run s pre).log.any HostCall.isSetLocation = true ∨
      ((run s pre).overlayLive = true ∧ (run s pre).pollScheduled = true ∧
        (run s pre).expiryPending = true ∧
        (run s pre).log.countP HostCall.isDeleteOverlay = 0 ∧
        (run s pre).log.countP HostCall.isClearInterval = 0) := by
  induction pre generalizing s with
  | nil => exact h
  | cons e rest ih =>
    have := ih (fire s e) (fun e' he' => hpre e' (List.mem_cons_of_mem _ he'))
      (fire_pre_expiry s e (hpre e (List.mem_cons_self _ _)) h)
    simpa [run] using this

theorem run_released (s : PortalSys) (post : List Event)
    (hpost : ∀ e ∈ post, e = .expiryTimer ∨ ∃ w, e = .pollTimer w)
    (h1 : s.pollScheduled = false) (h2 : s.expiryPending = false) : run s post = s := by
  induction post with
  | nil => rfl
  | cons e rest ih =>
    have hrest := ih (fun e' he' => hpost e' (List.mem_cons_of_mem _ he'))
    have he : fire s e = s := by
      rcases hpost e (List.mem_cons_self _ _) with rfl | ⟨w, rfl⟩
      · simp [fire, h2]
      · simp [fire, h1]
    simpa [run, he] using hrest

theorem newPortal_release_counts (sp : Spawn) (loc : String) (broadcast : Bool) (rd : JSVal) :
    (newPortal sp loc broadcast rd).log.countP HostCall.isDeleteOverlay = 0 ∧
    (newPortal sp loc broadcast rd).log.countP HostCall.isClearInterval = 0 ∧
    (newPortal sp loc broadcast rd).log.any HostCall.isSetLocation = false := by
  rw [newPortal_log]
  cases broadcast <;>
    simp [HostCall.isSetLocation, HostCall.isDeleteOverlay, HostCall.isClearInterval]

/-- Claim C7 as stated fails: a portal nobody enters expires (overlay deleted, poll cleared, once);
when the script later ends, the still connected script-ending handler acts on the portal again,
so `deleteOverlay` and `clearInterval` have each been issued twice. -/
theorem expired_portal_is_released_again :
    (run (newPortal demoSpawn "hifi://x/0,0,0" true .undefined)
        ([.labelTimer] ++ List.replicate 59 (.pollTimer false) ++ [.expiryTimer])).log.countP
      HostCall.isDeleteOverlay = 1 ∧
    (run (newPortal demoSpawn "hifi://x/0,0,0" true .undefined)
        ([.labelTimer] ++ List.replicate 59 (.pollTimer false)
          ++ [.expiryTimer, .scriptEnding])).log.any HostCall.isSetLocation = false ∧
    (run (newPortal demoSpawn "hifi://x/0,0,0" true .undefined)
        ([.labelTimer] ++ List.replicate 59 (.pollTimer false)
          ++ [.expiryTimer, .scriptEnding])).log.countP HostCall.isDeleteOverlay = 2 ∧
    (run (newPortal demoSpawn "hifi://x/0,0,0" true .undefined)
        ([.labelTimer] ++ List.replicate 59 (.pollTimer false)
          ++ [.expiryTimer, .scriptEnding])).log.countP HostCall.isClearInterval = 2 := by
  decide

/-- Claim C7, amended. `portal.newPortal` registers the expiry callback with a delay of 30000 ms.
Take a portal to which, since its creation, only label-timeout and poll-tick events have been
delivered (in particular the script has not ended) and which none of those poll ticks has
consumed.  When its expiry timeout then fires, the expiry callback issues `deleteOverlay` and
`clearInterval`, the first and only such calls so far; afterwards the overlay is gone and
neither the poll nor the expiry timer is scheduled, so no later poll tick or expiry changes
anything.  The script-ending handler stays connected and, when the script ends after that,
issues `clearInterval` and `deleteOverlay` once more.  Nothing is said about a portal whose
script ended before the expiry timeout fired. -/
theorem expiry_releases_portal (sp : Spawn) (loc : String) (broadcast : Bool) (rd : JSVal)
    (pre post : List Event)
    (hpre : ∀ e ∈ pre, e = .labelTimer ∨ ∃ w, e = .pollTimer w)
    (hnever : (run (newPortal sp loc broadcast rd) pre).log.any HostCall.isSetLocation = false)
    (hpost : ∀ e ∈ post, e = .expiryTimer ∨ ∃ w, e = .pollTimer w) :
    let p1 := run (newPortal sp loc broadcast rd) pre
    let p2 := fire p1 .expiryTimer
    HostCall.setTimeout .expiry 30000 ∈ (newPortal sp loc broadcast rd).log ∧
    p2.log = p1.log ++ [.deleteOverlay, .clearInterval] ∧
    p2.log.countP HostCall.isDeleteOverlay = 1 ∧
    p2.log.countP HostCall.isClearInterval = 1 ∧
    p2.overlayLive = false ∧ p2.pollScheduled = false ∧ p2.expiryPending = false ∧
    run p2 post = p2 ∧
    (fire (run p2 post) .scriptEnding).log = p2.log ++ [.clearInterval, .deleteOverlay] := by
  intro p1 p2
  have hs := newPortal_status sp loc broadcast rd
  have hc := newPortal_release_counts sp loc broadcast rd
  have hinv := run_pre_expiry (newPortal sp loc broadcast rd) pre hpre
    (Or.inr ⟨hs.2.2.2.1, hs.2.2.2.2.2.1, hs.2.2.2.2.2.2, hc.1, hc.2.1⟩)
  rcases hinv with hcons | ⟨h1, h2, h3, h4, h5⟩
  · rw [hnever] at hcons
    exact absurd hcons (by decide)
  · have hlog : p2.log = p1.log ++ [.deleteOverlay, .clearInterval] := by
      simp [p2, p1, fire, h3, expiryCallback, PortalSys.deleteOverlay, PortalSys.clearInterval]
    have hov : p2.overlayLive = false := by
      simp [p2, p1, fire, h3, expiryCallback, PortalSys.deleteOverlay, PortalSys.clearInterval]
    have hpoll : p2.pollScheduled = false := by
      simp [p2, p1, fire, h3, expiryCallback, PortalSys.deleteOverlay, PortalSys.clearInterval]
    have hexp : p2.expiryPending = false := by
      simp [p2, p1, fire, h3, expiryCallback, PortalSys.deleteOverlay, PortalSys.clearInterval]
    have hrun : run p2 post = p2 := run_released p2 post hpost hpoll hexp
    refine ⟨?_, hlog, ?_, ?_, hov, hpoll, hexp, hrun, ?_⟩
    · rw [newPortal_log]
      simp
    · rw [hlog, List.countP_append, h4]
      simp [HostCall.isDeleteOverlay]
    · rw [hlog, List.countP_append, h5]
      simp [HostCall.isClearInterval]
    · rw [hrun]
      simp [fire, endingCallback, PortalSys.deleteOverlay, PortalSys.clearInterval]

/-- Instance of claim C7 (amended): label timer, 59 poll ticks away from the portal, expiry, then
further ticks. -/
theorem expiry_releases_portal_witness :
    (fire (run (newPortal demoSpawn "hifi://x/0,0,0" true .undefined)
        ([.labelTimer] ++ List.replicate 59 (.pollTimer false))) .expiryTimer).log.countP
      HostCall.isDeleteOverlay = 1 ∧
    run (fire (run (newPortal demoSpawn "hifi://x/0,0,0" true .undefined)
        ([.labelTimer] ++ List.replicate 59 (.pollTimer false))) .expiryTimer)
        [.pollTimer true, .expiryTimer]
      = fire (run (newPortal demoSpawn "hifi://x/0,0,0" true .undefined)
        ([.labelTimer] ++ List.replicate 59 (.pollTimer false))) .expiryTimer :=
by
  obtain ⟨_, _, h3, _, _, _, _, h8, _⟩ :=
    expiry_releases_portal demoSpawn "hifi://x/0,0,0" true .undefined
      ([.labelTimer] ++ List.replicate 59 (.pollTimer false)) [.pollTimer true, .expiryTimer]
      (by decide) (by decide) (by decide)
  exact ⟨h3, h8⟩

/-- Claim C9 as stated fails: the script ends right after a portal was created; the script-ending
handler clears the poll interval and deletes the overlay, and the label-size timeout and the
expiry timeout are both still scheduled.  The same holds for the expiry timeout when the label
timeout has already fired. -/
theorem teardown_leaves_timers_scheduled :
    (fire (newPortal demoSpawn "hifi://x/0,0,0" true .undefined) .scriptEnding).pollScheduled
      = false ∧
    (fire (newPortal demoSpawn "hifi://x/0,0,0" true .undefined) .scriptEnding).labelPending
      = true ∧
    (fire (newPortal demoSpawn "hifi://x/0,0,0" true .undefined) .scriptEnding).expiryPending
      = true ∧
    (run (newPortal demoSpawn "hifi://x/0,0,0" true .undefined)
      [.labelTimer, .pollTimer false, .scriptEnding]).expiryPending = true := by
  decide

/-- Claim C9, amended. At each terminal event of a portal the proximity poll `p.timer` is cancelled
and the overlay is deleted: by the consumption step (a poll tick inside the radius while
`p.active`), by the expiry callback, and by the script-ending handler.  The consumption step
also cancels the expiry timeout, and the expiry callback runs when that one-shot timeout has
fired.  None of the three cancels the label-size timeout: it stays as it was, so after a
consumption step or an expiry callback none of the three timers is scheduled provided the label
timeout had already fired. -/
theorem terminal_events_release (s : PortalSys) :
    (s.pollScheduled = true → s.active = true →
      (fire s (.pollTimer true)).pollScheduled = false ∧
      (fire s (.pollTimer true)).expiryPending = false ∧
      (fire s (.pollTimer true)).overlayLive = false ∧
      (fire s (.pollTimer true)).labelPending = s.labelPending) ∧
    (s.expiryPending = true →
      (fire s .expiryTimer).pollScheduled = false ∧
      (fire s .expiryTimer).expiryPending = false ∧
      (fire s .expiryTimer).overlayLive = false ∧
      (fire s .expiryTimer).labelPending = s.labelPending) ∧
    ((fire s .scriptEnding).pollScheduled = false ∧
      (fire s .scriptEnding).overlayLive = false ∧
      (fire s .scriptEnding).labelPending = s.labelPending) := by
  refine ⟨?_, ?_, ?_⟩
  · intro h1 h2
    simp [fire, pollCallback, h1, h2, PortalSys.call, PortalSys.deleteOverlay,
      PortalSys.clearInterval, PortalSys.clearTimeout]
  · intro h
    simp [fire, h, expiryCallback, PortalSys.deleteOverlay, PortalSys.clearInterval]
  · simp [fire, endingCallback, PortalSys.deleteOverlay, PortalSys.clearInterval]

/-- Instance of claim C9 (amended): the creator steps away and back in; the consumption step leaves
no timer scheduled and no overlay. -/
theorem terminal_events_release_witness :
    (run (newPortal demoSpawn "hifi://x/0,0,0" true .undefined)
      [.labelTimer, .pollTimer false, .pollTimer true]).pollScheduled = false ∧
    (run (newPortal demoSpawn "hifi://x/0,0,0" true .undefined)
      [.labelTimer, .pollTimer false, .pollTimer true]).expiryPending = false ∧
    (run (newPortal demoSpawn "hifi://x/0,0,0" true .undefined)
      [.labelTimer, .pollTimer false, .pollTimer true]).overlayLive = false ∧
    (run (newPortal demoSpawn "hifi://x/0,0,0" true .undefined)
      [.labelTimer, .pollTimer false, .pollTimer true]).labelPending = false :=
  have h := (terminal_events_release
    (run (newPortal demoSpawn "hifi://x/0,0,0" true .undefined)
      [.labelTimer, .pollTimer false])).1 (by decide) (by decide)
  ⟨h.1, h.2.1, h.2.2.1, h.2.2.2⟩

/-! ## Bookmarks: claim -/

/-- Claim C6 fails on the code.  On a host whose `JSON.parse` reads the text `{}` as the empty object
and raises on an argument that is an object, the first `setLocationBookmarks` on an empty store
succeeds and `getLocationBookmarks` then returns the one-entry map, but the store now holds an
object, not JSON text, so every further `setLocationBookmarks` raises in `JSON.parse` and the
store keeps the first map only. -/
theorem second_bookmark_write_raises (H : Host)
    (hempty : H.jsonParse (.str "\x7b\x7d") = some (.obj []))
    (hobj : ∀ fs, H.jsonParse (.obj fs) = none)
    (name1 name2 : String) (loc1 loc2 : JSVal) :
    setLocationBookmarks H [] name1 loc1
      = .ok [("locationBookmarks", .obj [(name1, loc1)])] ∧
    getLocationBookmarks [("locationBookmarks", .obj [(name1, loc1)])]
      = .obj [(name1, loc1)] ∧
    setLocationBookmarks H [("locationBookmarks", .obj [(name1, loc1)])] name2 loc2
      = .error .raised := by
  refine ⟨?_, ?_, ?_⟩
  · simp [setLocationBookmarks, settingsGetValue, hempty, assignProp, setField,
      settingsSetValue]
  · simp [getLocationBookmarks, settingsGetValue]
  · simp [setLocationBookmarks, settingsGetValue, hobj]

/-- Instance of claim C6: `home` is stored, then storing `work` raises. -/
theorem second_bookmark_write_raises_witness :
    setLocationBookmarks demoHost [] "home" (.str "hifi://x/0,0,0")
      = .ok [("locationBookmarks", .obj [("home", .str "hifi://x/0,0,0")])] ∧
    setLocationBookmarks demoHost [("locationBookmarks", .obj [("home", .str "hifi://x/0,0,0")])]
        "work" (.str "hifi://y/1,1,1")
      = .error .raised :=
  have h := second_bookmark_write_raises demoHost rfl (fun _ => rfl) "home" "work"
    (.str "hifi://x/0,0,0") (.str "hifi://y/1,1,1")
  ⟨h.1, h.2.2⟩

end PortalDropper
